import Mathlib

set_option maxHeartbeats 1000000

/-!
Shallow embedding of `src/modules/criteoBidAdapter.js` (the local, delegate-absent
path: `publisherTagAvailable()` is false, so the richer vendor adapter is never
consulted).  JavaScript dynamic values are modelled with `Option` types, and JS
truthiness of numbers (`0` is falsy) and strings (`""` is falsy) is made explicit
through the `jsTruthy*` helpers.  Prices are modelled as rationals since the source
only copies them.
-/

/-- Adapter version constant `ADAPTER_VERSION = 5`. -/
def ADAPTER_VERSION : Nat := 5

/-- Profile id constant `PROFILE_ID = 207`. -/
def PROFILE_ID : Nat := 207

/-- Endpoint constant `CDB_ENDPOINT`. -/
def CDB_ENDPOINT : String := "//bidder.criteo.com/cdb"

/-- Vendor id constant `CRITEO_VENDOR_ID = 91`. -/
def CRITEO_VENDOR_ID : Nat := 91

/-- The `INTEGRATION_MODES` whitelist map: only the key `amp` is present, mapped
to the code `1` (own keys only; the JS prototype chain is not modelled). -/
def INTEGRATION_MODES (m : String) : Option Nat :=
  if m = "amp" then some 1 else none

/-- JS truthiness filter for an optional number: `undefined` and `0` are falsy. -/
def jsTruthyInt : Option Int → Option Int
  | some n => if n = 0 then none else some n
  | none => none

/-- JS truthiness filter for an optional string: `undefined` and `""` are falsy. -/
def jsTruthyStr : Option String → Option String
  | some s => if s = "" then none else some s
  | none => none

/-- JS `x || acc` on optional values: keep the accumulator unless `x` is truthy
(the truthiness filter having already been applied to `x`). -/
def jsOrElse {β : Type} (x : Option β) (acc : Option β) : Option β :=
  match x with
  | some v => some v
  | none => acc

/-- JS `x || d` on an optional number, as in `slot.ttl || 60`. -/
def jsOrInt (x : Option Int) (d : Int) : Int :=
  match x with
  | some n => if n = 0 then d else n
  | none => d

/-- Result of one asynchronous crypto verification attempt, as observed through the
callback of `cryptoVerify`: `importError` is a rejected key import (callback gets
`undefined`), `verifyError` a rejected verify call (callback gets `false`),
`result b` a resolved verification, and `callbackLost` a handler that dies before
invoking the callback (for instance `atob` throwing inside the promise handler). -/
inductive VerifyOutcome
  | importError
  | verifyError
  | result (b : Bool)
  | callbackLost

/-- Browser crypto environment for `cryptoVerify`: `subtle = none` models the
"No crypto lib found" branch, and `throws` models `cryptoVerify` raising
synchronously (caught by the try/catch in `validateFastBid`). -/
structure CryptoEnv where
  subtle : Option (String → String → VerifyOutcome)
  throws : Bool

/-- Observable behaviour of `cryptoVerify(algo, key, hash, code, callback)`:
the list of values the callback is invoked with (`none` is JS `undefined`). -/
def cryptoVerifyCalls (env : CryptoEnv) (hash code : String) : List (Option Bool) :=
  match env.subtle with
  | some verify =>
    match verify hash code with
    | VerifyOutcome.importError => [none]
    | VerifyOutcome.verifyError => [some false]
    | VerifyOutcome.result b => [some b]
    | VerifyOutcome.callbackLost => []
  | none => [none]

/-- JS `String.prototype.indexOf` for a single character: `-1` when absent. -/
def jsIndexOf (s : String) (c : Char) : Int :=
  match s.data.findIdx? (fun x => x == c) with
  | some i => (i : Int)
  | none => -1

/-- JS `String.prototype.substr(start, len)` with a possibly negative length. -/
def jsSubstr2 (s : String) (start : Nat) (len : Int) : String :=
  if len ≤ 0 then "" else String.mk ((s.data.drop start).take len.toNat)

/-- JS `String.prototype.substr(start)`, to the end of the string. -/
def jsSubstr1 (s : String) (start : Nat) : String :=
  String.mk (s.data.drop start)

/-- JS `String.prototype.trim`: whitespace removed from both ends. -/
def jsTrim (s : String) : String :=
  String.mk (((s.data.dropWhile Char.isWhitespace).reverse.dropWhile Char.isWhitespace).reverse)

/-- First line of the cached FastBid value, trimmed, per `validateFastBid`. -/
def fastBidFirstLine (fastBid : String) : String :=
  jsTrim (jsSubstr2 fastBid 0 (jsIndexOf fastBid '\n'))

/-- Whether the trimmed first line starts with the 9-character header `// Hash: `. -/
def hasHashHeader (fastBid : String) : Bool :=
  jsSubstr2 (fastBidFirstLine fastBid) 0 9 == "// Hash: "

/-- The declared hash: the first line with the 9-character header removed. -/
def fileEncryptedHash (fastBid : String) : String :=
  jsSubstr1 (fastBidFirstLine fastBid) 9

/-- The body of the cached value after the first line. -/
def publisherTagOf (fastBid : String) : String :=
  jsSubstr1 fastBid (jsIndexOf fastBid '\n' + 1).toNat

/-- Callback invocations made by the verification part of `validateFastBid`: the
`try { cryptoVerify(...) } catch { callback(undefined) }` tail. -/
def verificationTail (env : CryptoEnv) (fastBid : String) : List (Option Bool) :=
  if env.throws then [none]
  else cryptoVerifyCalls env (fileEncryptedHash fastBid) (publisherTagOf fastBid)

/-- All callback invocations made by `validateFastBid`.  The source does not return
after `callback(false)` on a missing hash header, so the verification attempt still
runs and the callback can fire a second time. -/
def validateFastBidCalls (env : CryptoEnv) (fastBid : String) : List (Option Bool) :=
  (if hasHashHeader fastBid then [] else [some false]) ++ verificationTail env fastBid

/-- Observable outcome of `tryGetCriteoFastBid`: the cache entry afterwards and
whether the cached blob was passed to `eval`. -/
structure FastBidOutcome where
  cache : Option String
  executed : Bool
deriving DecidableEq

/-- The function `tryGetCriteoFastBid`: its callback evicts the entry when invoked
with exactly `false` (`valid === false`), and otherwise (true or undefined)
logs "Using Criteo FastBid" and `eval`s the cached blob. -/
def tryGetCriteoFastBid (env : CryptoEnv) (cache : Option String) : FastBidOutcome :=
  match cache with
  | none => { cache := none, executed := false }
  | some fastBid =>
    let calls := validateFastBidCalls env fastBid
    { cache := if calls.contains (some false) then none else some fastBid,
      executed := calls.any (fun v => v != some false) }

/-- Vendor-specific bid parameters (`bid.params`). -/
structure BidParams where
  zoneId : Option Int
  networkId : Option Int
  publisherSubId : Option String
  nativeCallback : Bool
  integrationMode : Option String
deriving DecidableEq

/-- A raw framework bid as seen by `isBidRequestValid`: `params` may be missing. -/
structure RawBid where
  params : Option BidParams
deriving DecidableEq

/-- The predicate `spec.isBidRequestValid`:
`!!(bid && bid.params && (bid.params.zoneId || bid.params.networkId))`. -/
def isBidRequestValid (bid : Option RawBid) : Bool :=
  match bid with
  | none => false
  | some b =>
    match b.params with
    | none => false
    | some p => (jsTruthyInt p.zoneId).isSome || (jsTruthyInt p.networkId).isSome

/-- A SlotRequest as consumed by the request builder and the response interpreter
(`params` present, framework identifiers set). -/
structure BidRequest where
  bidId : String
  adUnitCode : String
  transactionId : String
  auctionId : String
  sizes : List (Int × Int)
  params : BidParams
deriving DecidableEq

/-- Page environment consumed by `buildContext`: the top window URL and its parsed
query string, `parse(url).search`. -/
structure PageEnv where
  topUrl : String
  query : String → Option String

/-- The per-batch `CriteoContext`. -/
structure CriteoContext where
  url : String
  debug : Bool
  noLog : Bool
  integrationMode : Option String

/-- The function `buildContext`: flags from the query string, and the integration
mode assigned by the last SlotRequest whose `params.integrationMode` is truthy. -/
def buildContext (env : PageEnv) (bidRequests : List BidRequest) : CriteoContext :=
  { url := env.topUrl,
    debug := env.query "pbt_debug" == some "1",
    noLog := env.query "pbt_nolog" == some "1",
    integrationMode :=
      bidRequests.foldl (fun acc r => jsOrElse (jsTruthyStr r.params.integrationMode) acc) none }

/-- The fixed part of the CDB url up to the cache buster value. -/
def cdbBase (cb : Nat) : String :=
  CDB_ENDPOINT ++ "?profileId=" ++ Nat.repr PROFILE_ID ++ "&av=" ++ Nat.repr ADAPTER_VERSION
    ++ "&cb=" ++ Nat.repr cb

/-- The function `buildCdbUrl`: appends `&im=<code>` only when the context's
integration mode is a key of `INTEGRATION_MODES`, then the debug and nolog flags.
`cb` stands for the random cache-buster integer `Math.floor(Math.random() * 99999999999)`. -/
def buildCdbUrl (context : CriteoContext) (cb : Nat) : String :=
  let url := cdbBase cb
  let url := match context.integrationMode with
    | some m =>
      match INTEGRATION_MODES m with
      | some code => url ++ "&im=" ++ Nat.repr code
      | none => url
    | none => url
  let url := if context.debug then url ++ "&debug=1" else url
  if context.noLog then url ++ "&nolog=1" else url

/-- The literal prefix of every built CDB url (endpoint, fixed profileId and av,
and the cache-buster key). -/
def cdbFixedPrefix : String := "//bidder.criteo.com/cdb?profileId=207&av=5&cb="

/-- The `&im=` fragment the url receives from a context (empty when none). -/
def imPart (context : CriteoContext) : String :=
  match context.integrationMode with
  | some m =>
    match INTEGRATION_MODES m with
    | some code => "&im=" ++ Nat.repr code
    | none => ""
  | none => ""

/-- The `&debug=1` fragment (empty when the flag is off). -/
def debugPart (context : CriteoContext) : String :=
  if context.debug then "&debug=1" else ""

/-- The `&nolog=1` fragment (empty when the flag is off). -/
def nologPart (context : CriteoContext) : String :=
  if context.noLog then "&nolog=1" else ""

/-- Publisher block of the outbound payload. -/
structure CdbPublisher where
  url : String
  networkid : Option Int
deriving DecidableEq

/-- One outbound slot entry of the payload. -/
structure CdbSlot where
  impid : String
  transactionid : String
  auctionId : String
  sizes : List String
  zoneid : Option Int
  publishersubid : Option String
  native : Bool
deriving DecidableEq

/-- Consent block of the outbound payload. -/
structure CdbGdprConsent where
  gdprApplies : Bool
  consentData : Option String
  consentGiven : Bool
deriving DecidableEq

/-- The outbound payload `CdbRequest`. -/
structure CdbRequest where
  publisher : CdbPublisher
  slots : List CdbSlot
  gdprConsent : Option CdbGdprConsent
deriving DecidableEq

/-- The `vendorData` object of the consent input. -/
structure VendorData where
  vendorConsents : Option (List (String × Bool))
deriving DecidableEq

/-- Consent input carried by the bidder-level request. -/
structure GdprInput where
  gdprApplies : Option Bool
  consentString : Option String
  vendorData : Option VendorData
deriving DecidableEq

/-- The bidder-level request (timeout and optional consent). -/
structure BidderRequest where
  timeout : Nat
  gdprConsent : Option GdprInput
deriving DecidableEq

/-- One outbound slot entry per SlotRequest (the map inside `buildCdbRequest`).
Optional fields are attached only when the corresponding param is truthy. -/
def mkCdbSlot (r : BidRequest) : CdbSlot :=
  { impid := r.adUnitCode,
    transactionid := r.transactionId,
    auctionId := r.auctionId,
    sizes := r.sizes.map (fun s => toString s.1 ++ "x" ++ toString s.2),
    zoneid := jsTruthyInt r.params.zoneId,
    publishersubid := jsTruthyStr r.params.publisherSubId,
    native := r.params.nativeCallback }

/-- The function `buildCdbRequest`: a publisher block whose `networkid` is the
running `networkId` variable (updated by each slot whose `params.networkId` is
truthy, `networkId = bidRequest.params.networkId || networkId`), one slot entry per
SlotRequest, and the consent block when the bidder-level request carries one. -/
def buildCdbRequest (context : CriteoContext) (bidRequests : List BidRequest)
    (bidderRequest : Option BidderRequest) : CdbRequest :=
  let networkId : Option Int :=
    bidRequests.foldl (fun acc r => jsOrElse (jsTruthyInt r.params.networkId) acc) none
  { publisher := { url := context.url, networkid := jsTruthyInt networkId },
    slots := bidRequests.map mkCdbSlot,
    gdprConsent :=
      match bidderRequest with
      | none => none
      | some br =>
        match br.gdprConsent with
        | none => none
        | some g =>
          some { gdprApplies := g.gdprApplies.getD false,
                 consentData := g.consentString,
                 consentGiven :=
                   match g.vendorData with
                   | none => false
                   | some vd =>
                     match vd.vendorConsents with
                     | none => false
                     | some vc => (vc.lookup (Nat.repr CRITEO_VENDOR_ID)).getD false } }

/-- The value returned by `buildRequests` when a request is produced. -/
structure ServerRequest where
  method : String
  url : String
  data : CdbRequest
  bidRequests : List BidRequest

/-- Every JavaScript object is truthy; `buildCdbRequest` always returns an object,
so the `if (data)` guard of `buildRequests` always passes on the local path. -/
def jsObjectTruthy (_ : CdbRequest) : Bool := true

/-- The function `spec.buildRequests` on the local path (delegate absent): build the
context, url and payload, and return the request when the payload is truthy.  The
FastBid attempt and the delayed script load are side effects modelled separately by
`tryGetCriteoFastBid`. -/
def buildRequests (env : PageEnv) (cb : Nat) (bidRequests : List BidRequest)
    (bidderRequest : Option BidderRequest) : Option ServerRequest :=
  let context := buildContext env bidRequests
  let url := buildCdbUrl context cb
  let data := buildCdbRequest context bidRequests bidderRequest
  if jsObjectTruthy data then
    some { method := "POST", url := url, data := data, bidRequests := bidRequests }
  else none

/-- JS error raised by the interpreter: reading `.bidId` of `undefined`. -/
inductive JsError
  | typeError
deriving DecidableEq

/-- Renderable ad markup of a bid: the native shim produced by `createNativeAd`
(abstracted to the request id it is keyed on; the markup string itself and the
global-table registration are irrelevant to every claim), or the raw creative. -/
inductive AdPayload
  | nativeShim (bidId : String)
  | creative (c : Option String)
deriving DecidableEq

/-- One entry of the response's `slots` list (arbitrary JSON fields, hence all
optional; `native` models the truthiness of the native payload field). -/
structure RespSlot where
  impid : Option String
  zoneid : Option Int
  cpm : Option ℚ
  currency : Option String
  ttl : Option Int
  width : Option Int
  height : Option Int
  native : Bool
  creative : Option String
deriving DecidableEq

/-- The value of the top-level `slots` field when present. -/
inductive SlotsVal
  | nonArray (truthy : Bool)
  | arr (slots : List RespSlot)
deriving DecidableEq

/-- The already-deserialized response body: a non-object value, or an object with an
optional `slots` field. -/
inductive RespBody
  | nonObject (truthy : Bool)
  | obj (slots : Option SlotsVal)
deriving DecidableEq

/-- The framework-shaped output bid. -/
structure NormBid where
  requestId : String
  cpm : Option ℚ
  currency : Option String
  netRevenue : Bool
  ttl : Int
  creativeId : String
  width : Option Int
  height : Option Int
  ad : AdPayload
deriving DecidableEq

/-- Correlate one response slot with the originating batch:
`b.adUnitCode === slot.impid && b.params.zoneId === slot.zoneid` with strict JS
equality (two `undefined`s are equal); `find` returns the first match. -/
def findMatch (bidRequests : List BidRequest) (slot : RespSlot) : Option BidRequest :=
  bidRequests.find?
    (fun b => (slot.impid == some b.adUnitCode) && (b.params.zoneId == slot.zoneid))

/-- The NormalizedBid built for a matched slot. -/
def mkBid (bidRequest : BidRequest) (slot : RespSlot) : NormBid :=
  { requestId := bidRequest.bidId,
    cpm := slot.cpm,
    currency := slot.currency,
    netRevenue := true,
    ttl := jsOrInt slot.ttl 60,
    creativeId := bidRequest.bidId,
    width := slot.width,
    height := slot.height,
    ad := if slot.native then AdPayload.nativeShim bidRequest.bidId
          else AdPayload.creative slot.creative }

/-- The `forEach` over the response slots.  An unmatched slot makes the source read
`bidRequest.bidId` on `undefined`, raising a TypeError that aborts the whole call. -/
def interpretSlots (bidRequests : List BidRequest) :
    List RespSlot → Except JsError (List NormBid)
  | [] => Except.ok []
  | slot :: rest =>
    match findMatch bidRequests slot with
    | none => Except.error JsError.typeError
    | some bidRequest =>
      (interpretSlots bidRequests rest).map (fun bids => mkBid bidRequest slot :: bids)

/-- The function `spec.interpretResponse` on the local path (delegate absent),
applied to the selected body (`response.body || response`) and to the originating
batch carried by the request. -/
def interpretResponse (body : RespBody) (bidRequests : List BidRequest) :
    Except JsError (List NormBid) :=
  match body with
  | RespBody.nonObject _ => Except.ok []
  | RespBody.obj none => Except.ok []
  | RespBody.obj (some (SlotsVal.nonArray _)) => Except.ok []
  | RespBody.obj (some (SlotsVal.arr slots)) => interpretSlots bidRequests slots

/-- Substring containment between strings, used by the URL claims. -/
abbrev ContainsSub (s pat : String) : Prop := pat.data <:+: s.data

/-- Adjacency relation forbidding the character pair `i`,`m`; a character list that
satisfies `Chain' RIm` cannot contain the substring `im=1`. -/
abbrev RIm (a b : Char) : Prop := ¬(a = 'i' ∧ b = 'm')

/-- Computable check that no adjacent character pair is `i`,`m`. -/
def noIM : List Char → Bool
  | [] => true
  | a :: t =>
    match t with
    | [] => true
    | b :: _ => (!(a == 'i' && b == 'm')) && noIM t

/-- Literal reading of the C6 side condition: the option value declares a mode that
is outside the whitelist. -/
def declaresOutsideWhitelist (o : Option String) : Bool :=
  match o with
  | some m => !(INTEGRATION_MODES m).isSome
  | none => false

/-- Literal reading of the C6 claim condition: some SlotRequest declares
`integrationMode: 'amp'` and no SlotRequest after it declares a mode outside
the whitelist. -/
abbrev specImCondition (bidRequests : List BidRequest) : Prop :=
  ∃ i : Fin bidRequests.length,
    (bidRequests.get i).params.integrationMode = some "amp" ∧
    ∀ j : Fin bidRequests.length, i.val < j.val →
      declaresOutsideWhitelist ((bidRequests.get j).params.integrationMode) = false

/-- Literal reading of the C7 claim: the network id of the last SlotRequest in the
batch that declares one. -/
def lastDeclaredNetworkId (bidRequests : List BidRequest) : Option Int :=
  (bidRequests.filterMap (fun r => r.params.networkId)).getLast?

/-- The last truthy value of a per-request optional field across the batch; both
last-write-wins folds of the source reduce to this. -/
def lastTruthy {α : Type} (f : BidRequest → Option α) (bidRequests : List BidRequest) :
    Option α :=
  (bidRequests.filterMap f).getLast?

/-- Example bid parameters used by concrete instances. -/
def exParams : BidParams :=
  { zoneId := some 7, networkId := none, publisherSubId := none,
    nativeCallback := false, integrationMode := none }

/-- Example SlotRequest matching the section 8 example of the spec. -/
def exReq : BidRequest :=
  { bidId := "bid-1", adUnitCode := "div1", transactionId := "t1", auctionId := "a1",
    sizes := [(300, 250)], params := exParams }

/-- Example response slot from section 8 of the spec. -/
def exSlot : RespSlot :=
  { impid := some "div1", zoneid := some 7, cpm := some (1.5 : ℚ),
    currency := some "USD", ttl := none, width := some 300, height := some 250,
    native := false, creative := none }

/-- The bid produced for `exSlot` matched with `exReq`. -/
def exBid : NormBid :=
  { requestId := "bid-1", cpm := some (1.5 : ℚ), currency := some "USD",
    netRevenue := true, ttl := 60, creativeId := "bid-1", width := some 300,
    height := some 250, ad := AdPayload.creative none }

/-- Response body containing exactly the section 8 example slot. -/
def exBody : RespBody := RespBody.obj (some (SlotsVal.arr [exSlot]))

/-- The section 8 example slot with an explicit `ttl: 0`. -/
def exSlotTtl0 : RespSlot := { exSlot with ttl := some 0 }

/-- A response slot whose placement id matches no SlotRequest of the batch. -/
def unmatchedSlot : RespSlot := { exSlot with impid := some "div9" }

/-- Params declaring `zoneId: 0` (declared but falsy). -/
def paramsZone0 : BidParams := { exParams with zoneId := some 0 }

/-- A raw bid whose params declare `zoneId: 0`. -/
def rawZone0 : RawBid := { params := some paramsZone0 }

/-- A SlotRequest declaring `integrationMode: 'amp'`. -/
def ampReq : BidRequest := { exReq with params := { exParams with integrationMode := some "amp" } }

/-- A SlotRequest declaring the falsy mode `integrationMode: ''`. -/
def emptyModeReq : BidRequest := { exReq with params := { exParams with integrationMode := some "" } }

/-- Batch where a falsy mode declaration follows the amp declaration. -/
def cexModeBatch : List BidRequest := [ampReq, emptyModeReq]

/-- A SlotRequest declaring `networkId: 42`. -/
def req42 : BidRequest := { exReq with params := { exParams with networkId := some 42 } }

/-- A SlotRequest declaring the falsy `networkId: 0`. -/
def req0 : BidRequest := { exReq with params := { exParams with networkId := some 0 } }

/-- Batch where the last declared network id is the falsy `0`. -/
def cexNetBatch : List BidRequest := [req42, req0]

/-- A concrete page environment with an empty query string. -/
def exEnv : PageEnv := { topUrl := "https://example.com", query := fun _ => none }

/-- A concrete context with no integration mode and no flags. -/
def exCtx : CriteoContext :=
  { url := "https://example.com", debug := false, noLog := false, integrationMode := none }

/-- Crypto environment with no crypto capability at all. -/
def envNoCrypto : CryptoEnv := { subtle := none, throws := false }

/-- A well-formed cached FastBid entry (hash header present). -/
def fbGood : String := "// Hash: abc\nbody"

/-- The malformed cached entry of the spec's section 8: `"not a hash\nbody"`. -/
def fbBad : String := "not a hash\nbody"

/-- A truthy filter only ever produces nonzero values. -/
theorem jsTruthyInt_eq_some {o : Option Int} {v : Int} (h : jsTruthyInt o = some v) :
    v ≠ 0 := by
  unfold jsTruthyInt at h
  cases o with
  | none => exact absurd h (by simp)
  | some n =>
    by_cases hn : n = 0
    · simp [hn] at h
    · simp [hn] at h
      exact h ▸ hn

/-- Truthiness of an optional number, unfolded to an existential. -/
theorem jsTruthyInt_isSome (o : Option Int) :
    (jsTruthyInt o).isSome = true ↔ ∃ z, o = some z ∧ z ≠ 0 := by
  cases o with
  | none => simp [jsTruthyInt]
  | some n =>
    by_cases hn : n = 0
    · simp [jsTruthyInt, hn]
    · simp [jsTruthyInt, hn]

/-- A last-write-wins fold over optional values computes the last produced value,
falling back to the initial accumulator. -/
theorem foldl_update {α β : Type} (g : α → Option β) (l : List α) (init : Option β) :
    l.foldl (fun acc r => jsOrElse (g r) acc) init =
      jsOrElse ((l.filterMap g).getLast?) init := by
  induction l using List.reverseRecOn generalizing init with
  | nil => rfl
  | append_singleton l a ih =>
    rw [List.foldl_append, ih]
    cases hga : g a with
    | none =>
      simp only [List.foldl, List.filterMap_append, List.filterMap, hga, jsOrElse]
      simp
    | some v =>
      simp only [List.foldl, List.filterMap_append, List.filterMap, hga, jsOrElse]
      simp [List.getLast?_concat]

/-- The integration mode of the built context is the last truthy declared mode. -/
theorem buildContext_mode (env : PageEnv) (bidRequests : List BidRequest) :
    (buildContext env bidRequests).integrationMode =
      lastTruthy (fun r => jsTruthyStr r.params.integrationMode) bidRequests := by
  unfold buildContext lastTruthy
  rw [foldl_update (fun r => jsTruthyStr r.params.integrationMode) bidRequests none]
  cases ((bidRequests.filterMap (fun r => jsTruthyStr r.params.integrationMode)).getLast?) <;> rfl

/-- The publisher's network id of the built payload is the last truthy declared
network id of the batch. -/
theorem buildCdbRequest_networkid (context : CriteoContext) (bidRequests : List BidRequest)
    (bidderRequest : Option BidderRequest) :
    (buildCdbRequest context bidRequests bidderRequest).publisher.networkid =
      lastTruthy (fun r => jsTruthyInt r.params.networkId) bidRequests := by
  unfold buildCdbRequest lastTruthy
  rw [foldl_update (fun r => jsTruthyInt r.params.networkId) bidRequests none]
  cases hL : ((bidRequests.filterMap (fun r => jsTruthyInt r.params.networkId)).getLast?) with
  | none => rfl
  | some v =>
    have hv : v ∈ bidRequests.filterMap (fun r => jsTruthyInt r.params.networkId) :=
      List.mem_of_mem_getLast? (by simp [hL])
    rw [List.mem_filterMap] at hv
    obtain ⟨r, -, hr⟩ := hv
    have hvne : v ≠ 0 := jsTruthyInt_eq_some hr
    simp [jsOrElse, jsTruthyInt, hvne]

/-- C1 (amended): when the verification attempt is indeterminate, i.e. the callback
is invoked exactly once with `undefined` (crypto capability missing, key import
rejected, or `cryptoVerify` throwing), `tryGetCriteoFastBid` leaves the cache entry
untouched but nevertheless executes the cached blob, because only an explicit
`false` verdict skips the `eval` branch. -/
theorem c1_indeterminate_leaves_cache_but_executes (env : CryptoEnv) (fastBid : String)
    (h : validateFastBidCalls env fastBid = [none]) :
    tryGetCriteoFastBid env (some fastBid) = { cache := some fastBid, executed := true } := by
  simp [tryGetCriteoFastBid, h]

/-- Witness for C1: the no-crypto environment on a well-formed cached entry. -/
theorem c1_witness :
    validateFastBidCalls envNoCrypto fbGood = [none] ∧
    tryGetCriteoFastBid envNoCrypto (some fbGood) = { cache := some fbGood, executed := true } :=
  ⟨by decide, c1_indeterminate_leaves_cache_but_executes envNoCrypto fbGood (by decide)⟩

/-- Counterexample to C1 as stated: with no crypto capability and a well-formed
cached entry, the cache is indeed untouched but the blob IS executed
(`executed = true`), contradicting "neither executes the cached blob". -/
theorem c1_counterexample :
    tryGetCriteoFastBid envNoCrypto (some fbGood) = { cache := some fbGood, executed := true } := by
  decide

/-- C3 (amended): a cached entry without the hash header is reported invalid
(`callback(false)`) and evicted; but since `validateFastBid` does not return after
reporting, the verification attempt still runs, and the blob is executed exactly
when some later callback value differs from `false` (e.g. `undefined` in a
no-crypto environment). -/
theorem c3_missing_header_evicts_but_may_execute (env : CryptoEnv) (fastBid : String)
    (h : hasHashHeader fastBid = false) :
    tryGetCriteoFastBid env (some fastBid) =
      { cache := none,
        executed := (verificationTail env fastBid).any (fun v => v != some false) } := by
  simp [tryGetCriteoFastBid, validateFastBidCalls, h]

/-- Witness for C3: the malformed section 8 entry in the no-crypto environment. -/
theorem c3_witness :
    hasHashHeader fbBad = false ∧
    tryGetCriteoFastBid envNoCrypto (some fbBad) = { cache := none, executed := true } :=
  ⟨by decide,
   (c3_missing_header_evicts_but_may_execute envNoCrypto fbBad (by decide)).trans (by decide)⟩

/-- Counterexample to C3 as stated: the spec's own example entry `"not a hash\nbody"`
is evicted, yet in a no-crypto environment it IS executed, contradicting "the blob
is never executed". -/
theorem c3_counterexample :
    tryGetCriteoFastBid envNoCrypto (some fbBad) = { cache := none, executed := true } := by
  decide

/-- C9: a malformed response body — not an object (truthy or falsy), an object with
no `slots` field, or an object whose `slots` field is not a proper array — yields
the empty bid list without throwing, on the local path. -/
theorem c9_malformed_body_yields_empty (bidRequests : List BidRequest) (t t' : Bool) :
    interpretResponse (RespBody.nonObject t) bidRequests = Except.ok [] ∧
    interpretResponse (RespBody.obj none) bidRequests = Except.ok [] ∧
    interpretResponse (RespBody.obj (some (SlotsVal.nonArray t'))) bidRequests = Except.ok [] :=
  ⟨rfl, rfl, rfl⟩

/-- The slot loop succeeds exactly when every response slot has a correlating
SlotRequest, producing one bid per slot from its first match; any unmatched slot
aborts the whole loop with a TypeError. -/
theorem interpretSlots_eq (bidRequests : List BidRequest) (slots : List RespSlot) :
    interpretSlots bidRequests slots =
      (if slots.all (fun s => (findMatch bidRequests s).isSome)
       then Except.ok (slots.filterMap (fun s => (findMatch bidRequests s).map (fun r => mkBid r s)))
       else Except.error JsError.typeError) := by
  induction slots with
  | nil => rfl
  | cons s rest ih =>
    cases hm : findMatch bidRequests s with
    | none => simp [interpretSlots, hm]
    | some r =>
      by_cases hall : rest.all (fun s => (findMatch bidRequests s).isSome) = true
      · simp [interpretSlots, hm, ih, hall, Except.map]
      · simp [interpretSlots, hm, ih, hall, Except.map]

/-- Successful interpretation is pointwise: as many bids as slots, and the i-th bid
is built from the i-th slot and its first matching SlotRequest. -/
theorem interpretSlots_get (bidRequests : List BidRequest) (slots : List RespSlot)
    (bids : List NormBid) (h : interpretSlots bidRequests slots = Except.ok bids) :
    bids.length = slots.length ∧
    ∀ (i : Nat) (h1 : i < slots.length) (h2 : i < bids.length),
      ∃ r, findMatch bidRequests (slots.get ⟨i, h1⟩) = some r ∧
        bids.get ⟨i, h2⟩ = mkBid r (slots.get ⟨i, h1⟩) := by
  induction slots generalizing bids with
  | nil =>
    simp only [interpretSlots, Except.ok.injEq] at h
    subst h
    exact ⟨rfl, fun i h1 _ => absurd h1 (Nat.not_lt_zero i)⟩
  | cons s rest ih =>
    simp only [interpretSlots] at h
    cases hm : findMatch bidRequests s with
    | none => rw [hm] at h; exact absurd h (by simp)
    | some r =>
      rw [hm] at h
      cases hrest : interpretSlots bidRequests rest with
      | error e => rw [hrest] at h; exact absurd h (by simp [Except.map])
      | ok bs =>
        rw [hrest] at h
        simp only [Except.map, Except.ok.injEq] at h
        subst h
        obtain ⟨hlen, hpt⟩ := ih bs hrest
        refine ⟨by simp [hlen], ?_⟩
        intro i h1 h2
        cases i with
        | zero => exact ⟨r, hm, rfl⟩
        | succ n =>
          simp only [List.length_cons] at h1 h2
          obtain ⟨r', hr', hb'⟩ := hpt n (Nat.lt_of_succ_lt_succ h1) (Nat.lt_of_succ_lt_succ h2)
          exact ⟨r', hr', hb'⟩

/-- C2 (amended): the local interpreter produces bids exactly when every entry of
the `slots` list has a correlating SlotRequest (matched by placement id AND zone id,
first match wins), one bid per entry whose `requestId` is the matched SlotRequest's
`bidId`; an entry with no match raises a TypeError that fails the whole batch
rather than being dropped silently. -/
theorem c2_matching_drives_bids_or_type_error (bidRequests : List BidRequest)
    (slots : List RespSlot) :
    interpretResponse (RespBody.obj (some (SlotsVal.arr slots))) bidRequests =
      (if slots.all (fun s => (findMatch bidRequests s).isSome)
       then Except.ok (slots.filterMap (fun s => (findMatch bidRequests s).map (fun r => mkBid r s)))
       else Except.error JsError.typeError) ∧
    ∀ s : RespSlot,
      (findMatch bidRequests s).map (fun r => (mkBid r s).requestId) =
        (findMatch bidRequests s).map (fun r => r.bidId) :=
  ⟨interpretSlots_eq bidRequests slots, fun s => by cases findMatch bidRequests s <;> rfl⟩

/-- Counterexample to C2 as stated: a response slot whose placement id matches no
SlotRequest makes the whole interpretation throw a TypeError instead of being
dropped silently. -/
theorem c2_counterexample :
    interpretResponse (RespBody.obj (some (SlotsVal.arr [unmatchedSlot]))) [exReq] =
      Except.error JsError.typeError := rfl

/-- C10: every bid produced by the local interpreter has `creativeId` equal to
`requestId` (both are set to the matched SlotRequest's `bidId`). -/
theorem c10_creative_id_equals_request_id (body : RespBody) (bidRequests : List BidRequest)
    (bids : List NormBid) (h : interpretResponse body bidRequests = Except.ok bids) :
    ∀ b ∈ bids, b.creativeId = b.requestId := by
  intro b hb
  cases body with
  | nonObject t =>
    simp only [interpretResponse, Except.ok.injEq] at h
    subst h; simp at hb
  | obj o =>
    cases o with
    | none =>
      simp only [interpretResponse, Except.ok.injEq] at h
      subst h; simp at hb
    | some sv =>
      cases sv with
      | nonArray t =>
        simp only [interpretResponse, Except.ok.injEq] at h
        subst h; simp at hb
      | arr slots =>
        simp only [interpretResponse] at h
        obtain ⟨hlen, hpt⟩ := interpretSlots_get bidRequests slots bids h
        rw [List.mem_iff_get] at hb
        obtain ⟨⟨iv, hiv⟩, hi⟩ := hb
        obtain ⟨r, -, hbid⟩ := hpt iv (by omega) hiv
        rw [← hi, hbid]
        rfl

/-- Witness for C10: the section 8 example bid. -/
theorem c10_witness : exBid.creativeId = exBid.requestId :=
  c10_creative_id_equals_request_id exBody [exReq] [exBid] rfl exBid (by simp)

/-- C8 (amended): every produced bid copies the matched entry's cpm, currency,
width and height, has `netRevenue` fixed to `true`, and has `ttl` equal to the
entry's ttl when truthy, defaulting to 60 when the ttl is absent or `0` (the JS
`slot.ttl || 60`); and the section 8 example yields exactly one bid with cpm 1.5
and ttl 60. -/
theorem c8_bid_fields_copied_ttl_truthy_default :
    (∀ (bidRequests : List BidRequest) (slots : List RespSlot) (bids : List NormBid),
      interpretResponse (RespBody.obj (some (SlotsVal.arr slots))) bidRequests = Except.ok bids →
      ∀ (i : Nat) (h1 : i < slots.length) (h2 : i < bids.length),
        (bids.get ⟨i, h2⟩).cpm = (slots.get ⟨i, h1⟩).cpm ∧
        (bids.get ⟨i, h2⟩).currency = (slots.get ⟨i, h1⟩).currency ∧
        (bids.get ⟨i, h2⟩).width = (slots.get ⟨i, h1⟩).width ∧
        (bids.get ⟨i, h2⟩).height = (slots.get ⟨i, h1⟩).height ∧
        (bids.get ⟨i, h2⟩).netRevenue = true ∧
        (bids.get ⟨i, h2⟩).ttl = jsOrInt (slots.get ⟨i, h1⟩).ttl 60) ∧
    interpretResponse exBody [exReq] = Except.ok [exBid] := by
  refine ⟨?_, rfl⟩
  intro bidRequests slots bids h i h1 h2
  obtain ⟨-, hpt⟩ := interpretSlots_get bidRequests slots bids h
  obtain ⟨r, -, hbid⟩ := hpt i h1 h2
  rw [hbid]
  exact ⟨rfl, rfl, rfl, rfl, rfl, rfl⟩

/-- Witness for C8: the section 8 example instantiates the field equations. -/
theorem c8_witness :
    exBid.cpm = exSlot.cpm ∧ exBid.currency = exSlot.currency ∧
    exBid.width = exSlot.width ∧ exBid.height = exSlot.height ∧
    exBid.netRevenue = true ∧ exBid.ttl = jsOrInt exSlot.ttl 60 :=
  c8_bid_fields_copied_ttl_truthy_default.1 [exReq] [exSlot] [exBid] rfl 0
    (by decide) (by decide)

/-- Counterexample to C8 as stated: an entry with `ttl: 0` (present, not absent)
still yields a bid with ttl 60, because the default also fires on the falsy `0`. -/
theorem c8_counterexample :
    interpretResponse (RespBody.obj (some (SlotsVal.arr [exSlotTtl0]))) [exReq] =
      Except.ok [exBid] ∧ exSlotTtl0.ttl = some 0 ∧ exBid.ttl = 60 :=
  ⟨rfl, rfl, rfl⟩

/-- C4 (amended): on the local path `buildCdbRequest` unconditionally returns a
payload object, which is always truthy, so `buildRequests` always returns a request
carrying one slot entry per SlotRequest — in particular an empty batch yields a
request with an empty slot list, not nothing. -/
theorem c4_builder_always_returns_request (env : PageEnv) (cb : Nat)
    (bidRequests : List BidRequest) (bidderRequest : Option BidderRequest) :
    ∃ r, buildRequests env cb bidRequests bidderRequest = some r ∧
      r.data.slots.length = bidRequests.length :=
  ⟨_, rfl, by simp [buildRequests, buildCdbRequest]⟩

/-- Counterexample to C4 as stated: an empty batch yields a request whose slot list
is empty, rather than yielding nothing. -/
theorem c4_counterexample :
    (buildRequests exEnv 0 [] none).map (fun r => r.data.slots) = some [] := by
  decide

/-- C5 (amended): `isBidRequestValid` returns `true` iff the bid and its params
exist and at least one of `zoneId`, `networkId` is truthy (present and nonzero);
`{params:{}}` gives false and `{params:{zoneId:123}}` gives true, but the
declared-yet-falsy `{params:{zoneId:0}}` also gives false. -/
theorem c5_validity_iff_truthy_zone_or_network (bid : Option RawBid) :
    isBidRequestValid bid = true ↔
      ∃ b p, bid = some b ∧ b.params = some p ∧
        ((∃ z, p.zoneId = some z ∧ z ≠ 0) ∨ (∃ n, p.networkId = some n ∧ n ≠ 0)) := by
  cases bid with
  | none => simp [isBidRequestValid]
  | some b =>
    cases hp : b.params with
    | none => simp [isBidRequestValid, hp]
    | some p =>
      simp [isBidRequestValid, hp, Bool.or_eq_true, jsTruthyInt_isSome]

/-- Counterexample to C5 as stated: params declaring `zoneId: 0` declare a zoneId,
yet the predicate returns false. -/
theorem c5_counterexample :
    isBidRequestValid (some rawZone0) = false ∧
    rawZone0.params = some paramsZone0 ∧ paramsZone0.zoneId = some 0 :=
  ⟨by decide, rfl, rfl⟩

theorem digitChar_ne_i (n : Nat) : Nat.digitChar n ≠ 'i' := by
  rcases Nat.lt_or_ge n 16 with h | h
  · interval_cases n <;> decide
  · unfold Nat.digitChar
    repeat rw [if_neg (by omega)]
    decide

theorem toDigitsCore_mem (b : Nat) :
    ∀ (fuel n : Nat) (acc : List Char), ∀ c ∈ Nat.toDigitsCore b fuel n acc,
      c ∈ acc ∨ ∃ m, c = Nat.digitChar m := by
  intro fuel
  induction fuel with
  | zero => intro n acc c hc; exact Or.inl hc
  | succ fuel ih =>
    intro n acc c hc
    rw [Nat.toDigitsCore] at hc
    by_cases hz : n / b = 0
    · rw [if_pos hz] at hc
      rcases List.mem_cons.mp hc with h | h
      · exact Or.inr ⟨n % b, h⟩
      · exact Or.inl h
    · rw [if_neg hz] at hc
      rcases ih (n / b) ((n % b).digitChar :: acc) c hc with h | h
      · rcases List.mem_cons.mp h with h' | h'
        · exact Or.inr ⟨n % b, h'⟩
        · exact Or.inl h'
      · exact Or.inr h

theorem repr_ne_i (n : Nat) : ∀ c ∈ (Nat.repr n).data, c ≠ 'i' := by
  intro c hc
  have hd : (Nat.repr n).data = Nat.toDigitsCore 10 (n + 1) n [] := rfl
  rw [hd] at hc
  rcases toDigitsCore_mem 10 (n + 1) n [] c hc with h | ⟨m, rfl⟩
  · exact absurd h (List.not_mem_nil c)
  · exact digitChar_ne_i m

theorem chain_of_noIM : ∀ l : List Char, noIM l = true → l.Chain' RIm := by
  intro l
  induction l with
  | nil => intro _; exact List.chain'_nil
  | cons a t ih =>
    cases t with
    | nil => intro _; exact List.chain'_singleton a
    | cons b t2 =>
      intro h
      unfold noIM at h
      rw [Bool.and_eq_true] at h
      rw [List.chain'_cons]
      refine ⟨?_, ih h.2⟩
      intro hab
      have h1 := h.1
      rw [hab.1, hab.2] at h1
      simp at h1

theorem chain_of_ne_i (l : List Char) (h : ∀ c ∈ l, c ≠ 'i') : l.Chain' RIm := by
  induction l with
  | nil => exact List.chain'_nil
  | cons a t ih =>
    rw [List.chain'_cons']
    exact ⟨fun y _ hy => h a (List.mem_cons_self a t) hy.1,
           ih fun c hc => h c (List.mem_cons_of_mem a hc)⟩

theorem chain_append_head (l m : List Char) (hl : l.Chain' RIm) (hm : m.Chain' RIm)
    (hhead : ∀ y ∈ m.head?, y ≠ 'm') : (l ++ m).Chain' RIm :=
  List.chain'_append.mpr ⟨hl, hm, fun _ _ y hy hp => hhead y hy hp.2⟩

theorem chain_append_last (l m : List Char) (hl : l.Chain' RIm) (hm : m.Chain' RIm)
    (hlast : ∀ x ∈ l.getLast?, x ≠ 'i') : (l ++ m).Chain' RIm :=
  List.chain'_append.mpr ⟨hl, hm, fun x hx _ _ hp => hlast x hx hp.1⟩

theorem cdbBase_data (cb : Nat) :
    (cdbBase cb).data = cdbFixedPrefix.data ++ (Nat.repr cb).data := rfl

theorem chain_cdbBase (cb : Nat) : (cdbBase cb).data.Chain' RIm := by
  rw [cdbBase_data]
  exact chain_append_last _ _ (chain_of_noIM _ rfl)
    (chain_of_ne_i _ (repr_ne_i cb)) (by decide)

theorem chain_debugPart (context : CriteoContext) : (debugPart context).data.Chain' RIm := by
  unfold debugPart
  split
  · exact chain_of_noIM _ rfl
  · exact List.chain'_nil

theorem head_debugPart (context : CriteoContext) :
    ∀ y ∈ (debugPart context).data.head?, y ≠ 'm' := by
  unfold debugPart; split <;> decide

theorem chain_nologPart (context : CriteoContext) : (nologPart context).data.Chain' RIm := by
  unfold nologPart
  split
  · exact chain_of_noIM _ rfl
  · exact List.chain'_nil

theorem head_nologPart (context : CriteoContext) :
    ∀ y ∈ (nologPart context).data.head?, y ≠ 'm' := by
  unfold nologPart; split <;> decide

theorem buildCdbUrl_eq (context : CriteoContext) (cb : Nat) :
    buildCdbUrl context cb =
      cdbBase cb ++ imPart context ++ debugPart context ++ nologPart context := by
  rcases context with ⟨u, d, n, m⟩
  unfold buildCdbUrl imPart debugPart nologPart
  dsimp only
  cases m with
  | none => cases d <;> cases n <;> simp [String.append_empty]
  | some mm =>
    cases hmm : INTEGRATION_MODES mm with
    | none => cases d <;> cases n <;> simp [hmm, String.append_empty]
    | some code => cases d <;> cases n <;> simp [hmm, String.append_empty, String.append_assoc]

theorem chain_url (context : CriteoContext) (cb : Nat) (him : imPart context = "") :
    (buildCdbUrl context cb).data.Chain' RIm := by
  rw [buildCdbUrl_eq, him, String.append_empty]
  rw [String.data_append, String.data_append]
  exact chain_append_head _ _
    (chain_append_head _ _ (chain_cdbBase cb) (chain_debugPart _) (head_debugPart _))
    (chain_nologPart _) (head_nologPart _)

theorem not_chain_imdata : ¬ (("im=1" : String).data.Chain' RIm) := by
  intro h
  exact (List.chain'_cons'.mp h).1 'm' rfl ⟨rfl, rfl⟩

theorem not_contains_im (context : CriteoContext) (cb : Nat) (him : imPart context = "") :
    ¬ ContainsSub (buildCdbUrl context cb) "im=1" := fun hinf =>
  absurd ( List.Chain'.infix (chain_url context cb him) hinf) not_chain_imdata

theorem infix_append_left {p l r : List Char} (h : p <:+: l) : p <:+: l ++ r := by
  obtain ⟨s, t, rfl⟩ := h
  exact ⟨s, t ++ r, by simp⟩

theorem infix_append_right {p l r : List Char} (h : p <:+: r) : p <:+: l ++ r := by
  obtain ⟨s, t, rfl⟩ := h
  exact ⟨l ++ s, t, by simp⟩

theorem contains_of_imPart (context : CriteoContext) (cb : Nat)
    (him : imPart context = "&im=1") : ContainsSub (buildCdbUrl context cb) "im=1" := by
  show ("im=1" : String).data <:+: (buildCdbUrl context cb).data
  rw [buildCdbUrl_eq, him]
  rw [String.data_append, String.data_append, String.data_append]
  exact infix_append_left (infix_append_left (infix_append_right (by decide)))

theorem c6_url_params_and_im_flag (env : PageEnv) (bidRequests : List BidRequest) (cb : Nat) :
    ContainsSub (buildCdbUrl (buildContext env bidRequests) cb) "profileId=207" ∧
    ContainsSub (buildCdbUrl (buildContext env bidRequests) cb) "av=5" ∧
    (ContainsSub (buildCdbUrl (buildContext env bidRequests) cb) "im=1" ↔
      lastTruthy (fun r => jsTruthyStr r.params.integrationMode) bidRequests = some "amp") := by
  refine ⟨?_, ?_, ?_⟩
  · show ("profileId=207" : String).data <:+: _
    rw [buildCdbUrl_eq, String.data_append, String.data_append, String.data_append, cdbBase_data]
    exact infix_append_left (infix_append_left (infix_append_left (infix_append_left (by decide))))
  · show ("av=5" : String).data <:+: _
    rw [buildCdbUrl_eq, String.data_append, String.data_append, String.data_append, cdbBase_data]
    exact infix_append_left (infix_append_left (infix_append_left (infix_append_left (by decide))))
  · have hmode := buildContext_mode env bidRequests
    rcases hcase : lastTruthy (fun r => jsTruthyStr r.params.integrationMode) bidRequests with _ | m
    · have him : imPart (buildContext env bidRequests) = "" := by
        unfold imPart; rw [hmode, hcase]
      exact iff_of_false (not_contains_im _ _ him) (by simp)
    · by_cases hm : m = "amp"
      · subst hm
        have him : imPart (buildContext env bidRequests) = "&im=1" := by
          unfold imPart; rw [hmode, hcase]; rfl
        exact iff_of_true (contains_of_imPart _ _ him) rfl
      · have him : imPart (buildContext env bidRequests) = "" := by
          unfold imPart; rw [hmode, hcase]; simp [INTEGRATION_MODES, hm]
        exact iff_of_false (not_contains_im _ _ him) (by simp [hm])

theorem c6_counterexample :
    ContainsSub (buildCdbUrl (buildContext exEnv cexModeBatch) 0) "im=1" ∧
    ¬ specImCondition cexModeBatch := ⟨by decide, by decide⟩

theorem c7_networkid_last_truthy_wins (context : CriteoContext)
    (bidRequests : List BidRequest) (bidderRequest : Option BidderRequest) :
    (buildCdbRequest context bidRequests bidderRequest).publisher.networkid =
      lastTruthy (fun r => jsTruthyInt r.params.networkId) bidRequests ∧
    (buildCdbRequest exCtx [exReq, req42] none).publisher.networkid = some 42 :=
  ⟨buildCdbRequest_networkid context bidRequests bidderRequest, by decide⟩

theorem c7_counterexample :
    (buildCdbRequest exCtx cexNetBatch none).publisher.networkid = some 42 ∧
    lastDeclaredNetworkId cexNetBatch = some 0 := ⟨by decide, by decide⟩
